import Mathlib

set_option maxRecDepth 8192

namespace SecureChat

/-!
Verification development for the SecureChat secure multi-tier dispatch and
streaming pipeline.  The Python sources under src/ are shallowly embedded:
byte strings become lists of naturals, the AES-GCM and RSA-OAEP primitives of
the external cryptography library are modelled as idealized deterministic
primitives with the correct framing, lengths and failure behaviour, and the
stateful services become explicit state-passing functions.
-/

/-- Byte strings are lists of naturals (each conceptually below 256). -/
abbrev Bytes := List Nat

/-- Errors raised by the crypto boundary.  The Python code raises ValueError
or TypeError with a message; the spec calls all of them CryptoError.  Each
constructor corresponds to one raise site in src/common/encryption.py. -/
inductive CryptoErr where
  /-- decrypt_blob: encrypted blob shorter than the 12-byte nonce. -/
  | blobTooShortNonce : CryptoErr
  /-- decrypt_blob: AES-GCM authentication failure (generic message). -/
  | decryptionFailed : CryptoErr
  /-- hybrid_decrypt_at_worker: blob shorter than the 4-byte key length header. -/
  | hybridTooShortHeader : CryptoErr
  /-- hybrid_decrypt_at_worker: blob shorter than 4 + declared key length. -/
  | hybridTooShortKey : CryptoErr
  /-- RSA-OAEP decryption failure inside the library. -/
  | rsaFailed : CryptoErr
  deriving Repr, DecidableEq

/-- Modelled from the external cryptography library: a cheap deterministic
pseudorandom byte derived from a seed and an index.  Stands in for the AES
and OAEP keystream internals, which are outside this repository. -/
def prfByte (seed i : Nat) : Nat :=
  (seed * 7919 + i * 104729 + 97) % 256

/-- XOR a byte list against the keystream of a seed starting at index i.
Self-inverse, length preserving.  Models the stream of an ideal cipher. -/
def maskFrom (seed : Nat) (i : Nat) : Bytes → Bytes
  | [] => []
  | b :: rest => (b ^^^ prfByte seed i) :: maskFrom seed (i + 1) rest

/-- Fold a byte list into a single seed value (a cheap deterministic hash,
modelling key/nonce scheduling of the external library). -/
def mixBytes (l : Bytes) (a : Nat) : Nat :=
  l.foldl (fun acc b => (acc * 131 + b + 1) % 1000003) a

/-- Modelled from the external cryptography library: the 16-byte AES-GCM
authentication tag over a ciphertext, under a key/nonce schedule seed. -/
def tagOf (seed : Nat) (ct : Bytes) : Bytes :=
  (List.range 16).map (fun i => prfByte (mixBytes ct seed) i)

/-- Modelled AESGCM.encrypt of the external library: ciphertext is the
plaintext XORed with a key/nonce keystream, followed by a 16-byte tag. -/
def aesgcmEncrypt (key nonce pt : Bytes) : Bytes :=
  let seed := mixBytes (key ++ nonce) 0
  let ct := maskFrom seed 0 pt
  ct ++ tagOf seed ct

/-- Modelled AESGCM.decrypt of the external library: split off the 16-byte
tag, check it, and unmask the ciphertext.  Returns none on failure (the
library raises InvalidTag). -/
def aesgcmDecrypt (key nonce blob : Bytes) : Option Bytes :=
  let seed := mixBytes (key ++ nonce) 0
  if blob.length < 16 then none
  else
    let ct := blob.take (blob.length - 16)
    let tag := blob.drop (blob.length - 16)
    if tag = tagOf seed ct then some (maskFrom seed 0 ct) else none

/-- encrypt_blob of src/common/encryption.py.  The 12-byte nonce sampled by
os.urandom(12) is passed explicitly; the result is nonce plus ciphertext
(ciphertext includes the auth tag). -/
def encrypt_blob (plaintext key nonce : Bytes) : Bytes :=
  nonce ++ aesgcmEncrypt key nonce plaintext

/-- decrypt_blob of src/common/encryption.py: require at least the 12-byte
nonce, split, AES-GCM decrypt; any library failure becomes the generic
decryption failure (never surfacing the cause). -/
def decrypt_blob (encrypted_blob key : Bytes) : Except CryptoErr Bytes :=
  if encrypted_blob.length < 12 then .error .blobTooShortNonce
  else
    let nonce := encrypted_blob.take 12
    let ciphertext := encrypted_blob.drop 12
    match aesgcmDecrypt key nonce ciphertext with
    | some pt => .ok pt
    | none => .error .decryptionFailed

/-- Modelled from the external cryptography library: RSA-OAEP encryption of a
short message under a 2048-bit public key, idealized as a length-framed,
zero-padded block of 256 bytes masked by the keypair seed's keystream.  The
keypair is identified by its seed; src/ persists the PEM halves to disk. -/
def rsaEncrypt (pubSeed : Nat) (msg : Bytes) : Bytes :=
  maskFrom pubSeed 0 (msg.length % 256 :: (msg ++ List.replicate (255 - msg.length) 0))

/-- Modelled from the external cryptography library: RSA-OAEP decryption,
inverse of rsaEncrypt; none on any malformed block (the library raises). -/
def rsaDecrypt (privSeed : Nat) (ct : Bytes) : Option Bytes :=
  if ct.length = 256 then
    match maskFrom privSeed 0 ct with
    | [] => none
    | len :: rest => if len ≤ rest.length then some (rest.take len) else none
  else none

/-- struct.pack of a 4-byte big-endian unsigned integer. -/
def toBE4 (n : Nat) : Bytes :=
  [n / 16777216 % 256, n / 65536 % 256, n / 256 % 256, n % 256]

/-- struct.unpack of a 4-byte big-endian unsigned integer (first 4 bytes). -/
def fromBE4 (b : Bytes) : Nat :=
  (b.take 4).foldl (fun acc x => acc * 256 + x) 0

/-- hybrid_encrypt_for_worker of src/common/encryption.py: seal the plaintext
under a fresh 256-bit AES key (os.urandom(32), passed explicitly together
with the AES-GCM nonce), RSA-OAEP encrypt the AES key under the worker public
key, and pack the 4-byte big-endian key length, the RSA block and the AES
blob. -/
def hybrid_encrypt_for_worker (plaintext : Bytes) (workerPub : Nat)
    (aesKey nonce : Bytes) : Bytes :=
  let aes_cipher_blob := encrypt_blob plaintext aesKey nonce
  let rsa_encrypted_key := rsaEncrypt workerPub aesKey
  toBE4 rsa_encrypted_key.length ++ rsa_encrypted_key ++ aes_cipher_blob

/-- hybrid_decrypt_at_worker of src/common/encryption.py, instrumented: the
second component counts how many RSA private-key decryptions were performed,
so the short-circuit on malformed headers is observable.  Control flow
mirrors the source: reject blobs shorter than 4 bytes, parse the big-endian
key length, reject blobs shorter than 4 plus that length, RSA-decrypt the
key segment, then AES-GCM decrypt the rest. -/
def hybridDecryptAtWorkerI (hybrid_blob : Bytes) (workerPriv : Nat) :
    Except CryptoErr Bytes × Nat :=
  if hybrid_blob.length < 4 then (.error .hybridTooShortHeader, 0)
  else
    let key_len := fromBE4 (hybrid_blob.take 4)
    if hybrid_blob.length < 4 + key_len then (.error .hybridTooShortKey, 0)
    else
      let rsa_encrypted_key := (hybrid_blob.drop 4).take key_len
      let aes_cipher_blob := hybrid_blob.drop (4 + key_len)
      match rsaDecrypt workerPriv rsa_encrypted_key with
      | none => (.error .rsaFailed, 1)
      | some aes_key => (decrypt_blob aes_cipher_blob aes_key, 1)

/-- hybrid_decrypt_at_worker of src/common/encryption.py (result only). -/
def hybrid_decrypt_at_worker (hybrid_blob : Bytes) (workerPriv : Nat) :
    Except CryptoErr Bytes :=
  (hybridDecryptAtWorkerI hybrid_blob workerPriv).1

-- Basic lemmas about the modelled primitives.

/-! Privacy filter, from src/common/logging_utils.py. -/

/-- The two global privacy levers read from config by the logging module. -/
structure LogConfig where
  STRICT_NO_LOGGING_MODE : Bool
  ALLOW_HOST_LOGGING_OF_IDS : Bool
  deriving Repr, DecidableEq

/-- A Python value carried in the extra dict: either a str, or any other
object together with its str() rendering (isinstance checks distinguish the
two). -/
inductive PyVal where
  | str (s : String) : PyVal
  | other (rendering : String) : PyVal
  deriving Repr, DecidableEq

/-- str(value) coercion applied by the sanitizer to every kept value. -/
def PyVal.pyStr : PyVal → String
  | .str s => s
  | .other r => r

/-- SENSITIVE_KEYS of src/common/logging_utils.py: keys never logged. -/
def SENSITIVE_KEYS : List String :=
  ["prompt", "full_prompt", "raw_prompt", "input_text", "user_message",
   "response", "raw_output", "raw_response", "rag_context", "plaintext",
   "decrypted", "tokens", "token_ids", "embedding", "embeddings"]

/-- Detects the values dropped by the strict-mode length heuristic:
isinstance(value, str) and len(value) > 256. -/
def isLongStr : PyVal → Bool
  | .str s => s.length > 256
  | .other _ => false

/-- The sanitize helper of src/common/logging_utils.py: iterate the extra
dict in order; always drop sensitive keys; in strict mode additionally drop
tenant_id unless id logging is allowed, and drop long string values; coerce
every kept value with str(). -/
def sanitizeExtra (cfg : LogConfig) (extra : List (String × PyVal)) :
    List (String × String) :=
  extra.filterMap (fun kv =>
    if kv.1 ∈ SENSITIVE_KEYS then none
    else if cfg.STRICT_NO_LOGGING_MODE && kv.1 == "tenant_id"
        && !cfg.ALLOW_HOST_LOGGING_OF_IDS then none
    else if cfg.STRICT_NO_LOGGING_MODE && isLongStr kv.2 then none
    else some (kv.1, kv.2.pyStr))

/-- Python truthiness of an optional string argument. -/
def truthy : Option String → Bool
  | some s => s ≠ ""
  | none => false

/-- log_event of src/common/logging_utils.py, as the ordered list of
structured fields it emits (each rendered as key=value in the line): the
request_id when truthy; the tenant_id when truthy and id logging is allowed
(in non-strict mode without the flag the code still keeps it off); the
worker_id and error when truthy; the sanitized extra pairs; and a strict
mode marker. -/
def logFields (cfg : LogConfig) (request_id tenant_id worker_id error :
    Option String) (extra : List (String × PyVal)) : List (String × String) :=
  (if truthy request_id then [("request_id", request_id.getD "")] else []) ++
  (if truthy tenant_id && cfg.ALLOW_HOST_LOGGING_OF_IDS then
    [("tenant_id", tenant_id.getD "")] else []) ++
  (if truthy worker_id then [("worker_id", worker_id.getD "")] else []) ++
  (if truthy error then [("error", error.getD "")] else []) ++
  (sanitizeExtra cfg extra) ++
  (if cfg.STRICT_NO_LOGGING_MODE then [("strict_no_logging", "True")] else [])

/-- Rendering of one structured field into the emitted line. -/
def renderField (kv : String × String) : String := kv.1 ++ "=" ++ kv.2

/-- The full emitted log line of log_event: the message followed by the
space-joined rendered fields. -/
def logLine (cfg : LogConfig) (message : String) (request_id tenant_id
    worker_id error : Option String) (extra : List (String × PyVal)) : String :=
  message ++ " " ++ String.intercalate " "
    ((logFields cfg request_id tenant_id worker_id error extra).map renderField)

/-! Worker state machine and inference worker service, from
src/workers/worker_state_manager.py, src/workers/worker_server.py and
src/workers/inference_engine.py. -/

/-- WorkerState of src/common/schemas/worker_state.py. -/
inductive WorkerState where
  | INIT | MODEL_LOADING | READY | BUSY | STREAMING | TEARDOWN | FAILED
  deriving Repr, DecidableEq

/-- WorkerStateManager of src/workers/worker_state_manager.py.  The trace
field instruments the manager: it records the initial state followed by the
new state of every set_state call (each such call emits one
worker_state_change log event carrying that state). -/
structure WorkerStateManager where
  worker_id : String
  state : WorkerState
  trace : List WorkerState
  deriving Repr

/-- The manager constructor: state starts at INIT (no event is emitted for
it; the trace records it as the initial state). -/
def mkStateManager (worker_id : String) : WorkerStateManager :=
  { worker_id := worker_id, state := .INIT, trace := [.INIT] }

/-- set_state of src/workers/worker_state_manager.py: store the new state
and log one worker_state_change event (recorded on the trace).  The optional
request identifier only tags the log event. -/
def set_state (m : WorkerStateManager) (new_state : WorkerState)
    (request_id : Option String := none) : WorkerStateManager :=
  { m with state := new_state, trace := m.trace ++ [new_state] }

/-- initialize_worker of src/workers/worker_server.py: MODEL_LOADING, load
the model (external collaborator), then READY. -/
def initialize_worker (m : WorkerStateManager) : WorkerStateManager :=
  set_state (set_state m .MODEL_LOADING) .READY

/-- UTF-8 encoding of one code point, as Python str.encode performs it. -/
def utf8EncodeChar (n : Nat) : List Nat :=
  if n < 128 then [n]
  else if n < 2048 then [192 + n / 64, 128 + n % 64]
  else if n < 65536 then [224 + n / 4096, 128 + n / 64 % 64, 128 + n % 64]
  else [240 + n / 262144, 128 + n / 4096 % 64, 128 + n / 64 % 64, 128 + n % 64]

/-- Python str.encode of a string into UTF-8 bytes. -/
def strBytes (s : String) : Bytes :=
  s.data.flatMap (fun c => utf8EncodeChar c.toNat)

/-- encrypt_token of src/common/encryption.py: seal the UTF-8 bytes of one
token (the sampled nonce passed explicitly). -/
def encrypt_token (token : String) (key nonce : Bytes) : Bytes :=
  encrypt_blob (strBytes token) key nonce

/-- generate_stream of src/workers/inference_engine.py: the engine yields
each streamer chunk guarded by a Python truthiness test on the text, so
exactly the empty chunks are skipped; each yielded chunk is counted.  The
streamer itself is the external generation collaborator, so its raw chunk
list is a parameter. -/
def generateStreamChunks (raw : List String) : List String :=
  raw.filter (fun text => text != "")

/-- gRPC status codes used by WorkerService.RunInference on abort. -/
inductive GrpcStatus where
  | INVALID_ARGUMENT | INTERNAL
  deriving Repr, DecidableEq

/-- Result of one RunInference call: final manager, the emitted encrypted
tokens, the token_count metric, and the abort status if the call aborted. -/
structure RunResult where
  mgr : WorkerStateManager
  outputs : List Bytes
  tokenCount : Nat
  aborted : Option GrpcStatus
  deriving Repr

/-- The streaming loop body of RunInference: seal each engine chunk with the
worker key, one fresh nonce per chunk (nonce source indexed by position). -/
def workerYieldLoop (key : Bytes) (nonces : Nat → Bytes) :
    Nat → List String → List Bytes
  | _, [] => []
  | i, t :: ts => encrypt_token t key (nonces i) :: workerYieldLoop key nonces (i + 1) ts

/-- RunInference of src/workers/worker_server.py.  The decrypt outcome of
hybrid_decrypt_at_worker on the request blob is passed in as dec; chunks is
what the generation collaborator streams; genFails true means the
collaborator raises after its chunks.  Control flow mirrors the source: set
BUSY; on decrypt failure set FAILED and abort INVALID_ARGUMENT (the
try/finally that restores READY only wraps the generation phase, so no READY
follows); otherwise set STREAMING, seal and yield each engine chunk while
counting it; on generation failure set FAILED, abort INTERNAL, and the
finally still restores READY; on success set READY. -/
def RunInference (m : WorkerStateManager) (dec : Except CryptoErr Bytes)
    (chunks : List String) (genFails : Bool) (worker_key : Bytes)
    (nonces : Nat → Bytes) : RunResult :=
  let m1 := set_state m .BUSY
  match dec with
  | .error _ =>
    { mgr := set_state m1 .FAILED, outputs := [], tokenCount := 0,
      aborted := some .INVALID_ARGUMENT }
  | .ok _plaintext =>
    let m2 := set_state m1 .STREAMING
    let emitted := generateStreamChunks chunks
    let outs := workerYieldLoop worker_key nonces 0 emitted
    if genFails then
      { mgr := set_state (set_state m2 .FAILED) .READY, outputs := outs,
        tokenCount := emitted.length, aborted := some .INTERNAL }
    else
      { mgr := set_state m2 .READY, outputs := outs,
        tokenCount := emitted.length, aborted := none }

/-! Round-robin worker selection, from src/orchestrator/orchestrator_server.py. -/

/-- The orchestrator pool state: the fixed ordered worker list established at
construction and the shared round-robin cursor.  Worker records are
identified by their position in the list. -/
structure OrchPool where
  workers : List String
  rrIndex : Nat
  deriving Repr

/-- _choose_worker of src/orchestrator/orchestrator_server.py: read the
cursor modulo the pool size, advance the cursor by one modulo the pool size,
and return the selected position (the source returns the record stored
there). -/
def chooseWorker (o : OrchPool) : Nat × OrchPool :=
  let idx := o.rrIndex % o.workers.length
  (idx, { o with rrIndex := (o.rrIndex + 1) % o.workers.length })

/-- n successive worker selections under serialized access to the cursor. -/
def runSelections (o : OrchPool) : Nat → List Nat
  | 0 => []
  | n + 1 => (chooseWorker o).1 :: runSelections (chooseWorker o).2 n

/-! Dispatch coordinator, from src/orchestrator/inference_dispatcher.py. -/

/-- Lowercase hex digit of a value below 16. -/
def hexDigit (n : Nat) : Char :=
  if n < 10 then Char.ofNat (48 + n) else Char.ofNat (87 + n)

/-- Two lowercase hex digits of one byte. -/
def byteHex (b : Nat) : List Char :=
  [hexDigit (b / 16 % 16), hexDigit (b % 16)]

/-- Modelled from the external uuid library: str(uuid.uuid4()) over 16
random bytes (os.urandom), with the version nibble forced to 4 and the
variant bits forced to 10, rendered as 8-4-4-4-12 lowercase hex groups. -/
def uuid4Str (r : List Nat) : String :=
  let b := fun i => r.getD i 0
  let bs := [b 0, b 1, b 2, b 3, b 4, b 5, b 6 % 16 + 64, b 7,
             b 8 % 64 + 128, b 9, b 10, b 11, b 12, b 13, b 14, b 15]
  String.mk ((bs.take 4).flatMap byteHex ++ '-' ::
    (((bs.drop 4).take 2).flatMap byteHex ++ '-' ::
      (((bs.drop 6).take 2).flatMap byteHex ++ '-' ::
        (((bs.drop 8).take 2).flatMap byteHex ++ '-' ::
          (bs.drop 10).flatMap byteHex))))

/-- _ensure_request_id of src/orchestrator/inference_dispatcher.py: keep a
truthy caller-supplied request_id, otherwise generate str(uuid.uuid4()) from
the sampled random bytes r. -/
def ensure_request_id (request_id : Option String) (r : List Nat) : String :=
  match request_id with
  | none => uuid4Str r
  | some s => if s = "" then uuid4Str r else s

/-- The request fields the dispatcher reads (gRPC message at the
orchestrator boundary). -/
structure DispatchRequest where
  request_id : Option String
  encrypted_prompt : Option Bytes
  prompt : String
  deriving Repr

/-- dispatch of src/orchestrator/inference_dispatcher.py: resolve the
request identifier, prefer a truthy encrypted_prompt byte payload and
otherwise UTF-8 encode the prompt, hybrid-encrypt to the worker identity
public key, and return identifier and envelope.  The sampled uuid bytes,
AES key and nonce are explicit. -/
def dispatch (req : DispatchRequest) (r : List Nat) (workerPub : Nat)
    (aesKey nonce : Bytes) : String × Bytes :=
  let request_id := ensure_request_id req.request_id r
  let plaintext :=
    match req.encrypted_prompt with
    | some p => if p ≠ [] then p else strBytes req.prompt
    | none => strBytes req.prompt
  (request_id, hybrid_encrypt_for_worker plaintext workerPub aesKey nonce)

/-! Configuration, from src/common/config.py. -/

/-- The process environment as seen by os.getenv. -/
abbrev Env := String → Option String

/-- The fixed environment name prefix of src/common/config.py (named ENV_PREFIX there). -/
def ENV_PFX : String := "SECURELLM_"

/-- _env_str of src/common/config.py. -/
def _env_str (env : Env) (name dflt : String) : String :=
  match env (ENV_PFX ++ name) with
  | some val => val
  | none => dflt

/-- _env_int of src/common/config.py: an unparsable override falls back to
the default.  int() is modelled by String.toInt?, which accepts an optional
minus sign and digits (Python additionally strips whitespace and accepts a
plus sign and underscores; no claim depends on those forms). -/
def _env_int (env : Env) (name : String) (dflt : Int) : Int :=
  match env (ENV_PFX ++ name) with
  | none => dflt
  | some val =>
    match val.toInt? with
    | some n => n
    | none => dflt

/-- Modelled from the float() builtin: a simplified decimal grammar of an
optionally signed integer part with an optional all-digit fraction (Python
accepts more forms; no claim depends on them).  Values are exact rationals. -/
def pyParseFloat (s : String) : Option Rat :=
  match s.splitOn "." with
  | [a] => a.toInt?.map (fun n => (n : Rat))
  | [a, b] =>
    match a.toInt?, b.toNat? with
    | some n, some m =>
      some ((n : Rat) +
        (if s.startsWith "-" then -(m : Rat) else (m : Rat)) / (10 ^ b.length : Rat))
    | _, _ => none
  | _ => none

/-- _env_float of src/common/config.py. -/
def _env_float (env : Env) (name : String) (dflt : Rat) : Rat :=
  match env (ENV_PFX ++ name) with
  | none => dflt
  | some val =>
    match pyParseFloat val with
    | some x => x
    | none => dflt

/-- _env_bool of src/common/config.py: lowercase the override and compare
against the accepted truthy and falsy forms; anything else falls back. -/
def _env_bool (env : Env) (name : String) (dflt : Bool) : Bool :=
  match env (ENV_PFX ++ name) with
  | none => dflt
  | some val =>
    let v := val.toLower
    if v ∈ ["1", "true", "yes", "y", "on"] then true
    else if v ∈ ["0", "false", "no", "n", "off"] then false
    else dflt

/-- _env_bytes of src/common/config.py: a truthy override is UTF-8 encoded,
a missing or empty one falls back. -/
def _env_bytes (env : Env) (name : String) (dflt : Bytes) : Bytes :=
  match env (ENV_PFX ++ name) with
  | some val => if val ≠ "" then strBytes val else dflt
  | none => dflt

/-- The Config dataclass of src/common/config.py.  Python ints are Int,
floats are modelled as Rat, the region map as an association list. -/
structure Config where
  WORKER_ADDRESS : String
  ORCHESTRATOR_ADDRESS : String
  GATEWAY_HOST : String
  GATEWAY_PORT : Int
  WORKER_SECRET_KEY : Bytes
  ENCRYPTION_ALGO : String
  KEY_ROTATION_INTERVAL_MIN : Int
  STRICT_NO_LOGGING_MODE : Bool
  ALLOW_HOST_LOGGING_OF_IDS : Bool
  WORKER_POOL_MIN_SIZE : Int
  WORKER_POOL_MAX_SIZE : Int
  WORKER_IDLE_TIMEOUT_MS : Int
  WORKER_START_RETRIES : Int
  WORKER_HEALTHCHECK_INTERVAL_MS : Int
  HTTP_REQUEST_TIMEOUT_MS : Int
  ORCHESTRATOR_RPC_TIMEOUT_MS : Int
  MODEL_LOAD_TIMEOUT_MS : Int
  INFERENCE_TIMEOUT_MS : Int
  STREAM_IDLE_TIMEOUT_MS : Int
  RAG_TIMEOUT_MS : Int
  MODEL_NAME : String
  MODEL_QUANTIZATION_MODE : String
  MAX_PROMPT_TOKENS : Int
  MAX_GENERATION_TOKENS : Int
  ENABLE_FLASH_ATTENTION : Bool
  RAG_ENABLED : Bool
  RAG_FALLBACK_ENABLED : Bool
  RAG_TOP_K : Int
  EMBEDDING_MODEL_NAME : String
  VECTOR_DB_BACKEND : String
  RAG_MAX_CONTEXT_TOKENS : Int
  MAX_TENANTS : Int
  TENANT_RATE_LIMIT_QPS : Int
  TENANT_MAX_CONCURRENT_REQUESTS : Int
  METRICS_ENABLED : Bool
  METRICS_BACKEND : String
  METRICS_SAMPLING_RATE : Rat
  LOG_LEVEL : String
  REGION_TO_DC : List (String × String)

/-- The compiled defaults of the Config dataclass. -/
def Config.defaults : Config where
  WORKER_ADDRESS := "localhost:50051"
  ORCHESTRATOR_ADDRESS := "localhost:60051"
  GATEWAY_HOST := "0.0.0.0"
  GATEWAY_PORT := 8000
  WORKER_SECRET_KEY := strBytes "0123456789ABCDEF0123456789ABCDEF"
  ENCRYPTION_ALGO := "AES-GCM"
  KEY_ROTATION_INTERVAL_MIN := 60
  STRICT_NO_LOGGING_MODE := false
  ALLOW_HOST_LOGGING_OF_IDS := true
  WORKER_POOL_MIN_SIZE := 1
  WORKER_POOL_MAX_SIZE := 4
  WORKER_IDLE_TIMEOUT_MS := 60000
  WORKER_START_RETRIES := 2
  WORKER_HEALTHCHECK_INTERVAL_MS := 10000
  HTTP_REQUEST_TIMEOUT_MS := 30000
  ORCHESTRATOR_RPC_TIMEOUT_MS := 25000
  MODEL_LOAD_TIMEOUT_MS := 10000
  INFERENCE_TIMEOUT_MS := 15000
  STREAM_IDLE_TIMEOUT_MS := 5000
  RAG_TIMEOUT_MS := 2000
  MODEL_NAME := "llm-int8"
  MODEL_QUANTIZATION_MODE := "INT8"
  MAX_PROMPT_TOKENS := 2048
  MAX_GENERATION_TOKENS := 512
  ENABLE_FLASH_ATTENTION := true
  RAG_ENABLED := true
  RAG_FALLBACK_ENABLED := true
  RAG_TOP_K := 4
  EMBEDDING_MODEL_NAME := "bge-small"
  VECTOR_DB_BACKEND := "faiss"
  RAG_MAX_CONTEXT_TOKENS := 1024
  MAX_TENANTS := 10
  TENANT_RATE_LIMIT_QPS := 5
  TENANT_MAX_CONCURRENT_REQUESTS := 3
  METRICS_ENABLED := true
  METRICS_BACKEND := "stdout"
  METRICS_SAMPLING_RATE := 1
  LOG_LEVEL := "INFO"
  REGION_TO_DC := [("us-west-1", "cluster-a"), ("us-east-1", "cluster-b")]

/-- Config.from_env of src/common/config.py: every field except the region
map is read through its environment helper under the fixed prefix; the
region map is always a copy of the compiled default. -/
def Config.from_env (env : Env) : Config where
  WORKER_ADDRESS := _env_str env "WORKER_ADDRESS" Config.defaults.WORKER_ADDRESS
  ORCHESTRATOR_ADDRESS :=
    _env_str env "ORCHESTRATOR_ADDRESS" Config.defaults.ORCHESTRATOR_ADDRESS
  GATEWAY_HOST := _env_str env "GATEWAY_HOST" Config.defaults.GATEWAY_HOST
  GATEWAY_PORT := _env_int env "GATEWAY_PORT" Config.defaults.GATEWAY_PORT
  WORKER_SECRET_KEY :=
    _env_bytes env "WORKER_SECRET_KEY" Config.defaults.WORKER_SECRET_KEY
  ENCRYPTION_ALGO :=
    _env_str env "ENCRYPTION_ALGO" Config.defaults.ENCRYPTION_ALGO
  KEY_ROTATION_INTERVAL_MIN :=
    _env_int env "KEY_ROTATION_INTERVAL_MIN" Config.defaults.KEY_ROTATION_INTERVAL_MIN
  STRICT_NO_LOGGING_MODE :=
    _env_bool env "STRICT_NO_LOGGING_MODE" Config.defaults.STRICT_NO_LOGGING_MODE
  ALLOW_HOST_LOGGING_OF_IDS :=
    _env_bool env "ALLOW_HOST_LOGGING_OF_IDS" Config.defaults.ALLOW_HOST_LOGGING_OF_IDS
  WORKER_POOL_MIN_SIZE :=
    _env_int env "WORKER_POOL_MIN_SIZE" Config.defaults.WORKER_POOL_MIN_SIZE
  WORKER_POOL_MAX_SIZE :=
    _env_int env "WORKER_POOL_MAX_SIZE" Config.defaults.WORKER_POOL_MAX_SIZE
  WORKER_IDLE_TIMEOUT_MS :=
    _env_int env "WORKER_IDLE_TIMEOUT_MS" Config.defaults.WORKER_IDLE_TIMEOUT_MS
  WORKER_START_RETRIES :=
    _env_int env "WORKER_START_RETRIES" Config.defaults.WORKER_START_RETRIES
  WORKER_HEALTHCHECK_INTERVAL_MS :=
    _env_int env "WORKER_HEALTHCHECK_INTERVAL_MS"
      Config.defaults.WORKER_HEALTHCHECK_INTERVAL_MS
  HTTP_REQUEST_TIMEOUT_MS :=
    _env_int env "HTTP_REQUEST_TIMEOUT_MS" Config.defaults.HTTP_REQUEST_TIMEOUT_MS
  ORCHESTRATOR_RPC_TIMEOUT_MS :=
    _env_int env "ORCHESTRATOR_RPC_TIMEOUT_MS"
      Config.defaults.ORCHESTRATOR_RPC_TIMEOUT_MS
  MODEL_LOAD_TIMEOUT_MS :=
    _env_int env "MODEL_LOAD_TIMEOUT_MS" Config.defaults.MODEL_LOAD_TIMEOUT_MS
  INFERENCE_TIMEOUT_MS :=
    _env_int env "INFERENCE_TIMEOUT_MS" Config.defaults.INFERENCE_TIMEOUT_MS
  STREAM_IDLE_TIMEOUT_MS :=
    _env_int env "STREAM_IDLE_TIMEOUT_MS" Config.defaults.STREAM_IDLE_TIMEOUT_MS
  RAG_TIMEOUT_MS := _env_int env "RAG_TIMEOUT_MS" Config.defaults.RAG_TIMEOUT_MS
  MODEL_NAME := _env_str env "MODEL_NAME" Config.defaults.MODEL_NAME
  MODEL_QUANTIZATION_MODE :=
    _env_str env "MODEL_QUANTIZATION_MODE" Config.defaults.MODEL_QUANTIZATION_MODE
  MAX_PROMPT_TOKENS :=
    _env_int env "MAX_PROMPT_TOKENS" Config.defaults.MAX_PROMPT_TOKENS
  MAX_GENERATION_TOKENS :=
    _env_int env "MAX_GENERATION_TOKENS" Config.defaults.MAX_GENERATION_TOKENS
  ENABLE_FLASH_ATTENTION :=
    _env_bool env "ENABLE_FLASH_ATTENTION" Config.defaults.ENABLE_FLASH_ATTENTION
  RAG_ENABLED := _env_bool env "RAG_ENABLED" Config.defaults.RAG_ENABLED
  RAG_FALLBACK_ENABLED :=
    _env_bool env "RAG_FALLBACK_ENABLED" Config.defaults.RAG_FALLBACK_ENABLED
  RAG_TOP_K := _env_int env "RAG_TOP_K" Config.defaults.RAG_TOP_K
  EMBEDDING_MODEL_NAME :=
    _env_str env "EMBEDDING_MODEL_NAME" Config.defaults.EMBEDDING_MODEL_NAME
  VECTOR_DB_BACKEND :=
    _env_str env "VECTOR_DB_BACKEND" Config.defaults.VECTOR_DB_BACKEND
  RAG_MAX_CONTEXT_TOKENS :=
    _env_int env "RAG_MAX_CONTEXT_TOKENS" Config.defaults.RAG_MAX_CONTEXT_TOKENS
  MAX_TENANTS := _env_int env "MAX_TENANTS" Config.defaults.MAX_TENANTS
  TENANT_RATE_LIMIT_QPS :=
    _env_int env "TENANT_RATE_LIMIT_QPS" Config.defaults.TENANT_RATE_LIMIT_QPS
  TENANT_MAX_CONCURRENT_REQUESTS :=
    _env_int env "TENANT_MAX_CONCURRENT_REQUESTS"
      Config.defaults.TENANT_MAX_CONCURRENT_REQUESTS
  METRICS_ENABLED :=
    _env_bool env "METRICS_ENABLED" Config.defaults.METRICS_ENABLED
  METRICS_BACKEND :=
    _env_str env "METRICS_BACKEND" Config.defaults.METRICS_BACKEND
  METRICS_SAMPLING_RATE :=
    _env_float env "METRICS_SAMPLING_RATE" Config.defaults.METRICS_SAMPLING_RATE
  LOG_LEVEL := _env_str env "LOG_LEVEL" Config.defaults.LOG_LEVEL
  REGION_TO_DC := Config.defaults.REGION_TO_DC

-- Theorems.

theorem maskFrom_length (seed i : Nat) (l : Bytes) :
    (maskFrom seed i l).length = l.length := by
  induction l generalizing i with
  | nil => rfl
  | cons b rest ih => simp [maskFrom, ih]

theorem maskFrom_maskFrom (seed i : Nat) (l : Bytes) :
    maskFrom seed i (maskFrom seed i l) = l := by
  induction l generalizing i with
  | nil => rfl
  | cons b rest ih => simp [maskFrom, ih, Nat.xor_cancel_right]

theorem tagOf_length (seed : Nat) (ct : Bytes) : (tagOf seed ct).length = 16 := by
  simp [tagOf]

theorem aesgcm_roundtrip (key nonce pt : Bytes) :
    aesgcmDecrypt key nonce (aesgcmEncrypt key nonce pt) = some pt := by
  unfold aesgcmEncrypt aesgcmDecrypt
  set s := mixBytes (key ++ nonce) 0 with hs
  set ct := maskFrom s 0 pt with hct
  set tg := tagOf s ct with htg
  have hctlen : ct.length = pt.length := maskFrom_length s 0 pt
  have hlen : (ct ++ tg).length = pt.length + 16 := by
    simp [List.length_append, hctlen, htg, tagOf_length]
  rw [hlen]
  rw [if_neg (by omega)]
  have hsub : pt.length + 16 - 16 = pt.length := by omega
  rw [hsub, List.take_left' hctlen, List.drop_left' hctlen, ← htg, if_pos rfl,
    hct, maskFrom_maskFrom]

theorem encrypt_blob_length (plaintext key nonce : Bytes)
    (hn : nonce.length = 12) :
    (encrypt_blob plaintext key nonce).length = plaintext.length + 28 := by
  simp [encrypt_blob, aesgcmEncrypt, List.length_append, hn, maskFrom_length,
    tagOf_length]
  omega

theorem decrypt_encrypt_blob (plaintext key nonce : Bytes)
    (hn : nonce.length = 12) :
    decrypt_blob (encrypt_blob plaintext key nonce) key = .ok plaintext := by
  have hlen := encrypt_blob_length plaintext key nonce hn
  unfold decrypt_blob
  rw [if_neg (by omega)]
  unfold encrypt_blob
  rw [List.take_left' hn, List.drop_left' hn]
  simp only [aesgcm_roundtrip]

theorem rsa_roundtrip (seed : Nat) (msg : Bytes) (h : msg.length ≤ 255) :
    rsaDecrypt seed (rsaEncrypt seed msg) = some msg := by
  unfold rsaEncrypt rsaDecrypt
  have hlen : (maskFrom seed 0
      (msg.length % 256 :: (msg ++ List.replicate (255 - msg.length) 0))).length
      = 256 := by
    simp [maskFrom_length, List.length_append, List.length_replicate]
    omega
  rw [if_pos hlen, maskFrom_maskFrom]
  have hm : msg.length % 256 = msg.length := Nat.mod_eq_of_lt (by omega)
  rw [hm]
  simp [List.take_left]

theorem rsaEncrypt_length (seed : Nat) (msg : Bytes) (h : msg.length ≤ 255) :
    (rsaEncrypt seed msg).length = 256 := by
  simp [rsaEncrypt, maskFrom_length, List.length_append, List.length_replicate]
  omega

theorem fromBE4_toBE4 (n : Nat) (h : n < 4294967296) : fromBE4 (toBE4 n) = n := by
  simp [fromBE4, toBE4, List.foldl]
  omega

/-- C1: for every byte sequence and every RSA keypair (modelled by its seed),
decrypting with hybrid_decrypt_at_worker the envelope produced by
hybrid_encrypt_for_worker (with its sampled 256-bit AES key and 12-byte
nonce) returns exactly the plaintext. -/
theorem hybrid_roundtrip (pt aesKey nonce : Bytes) (seed : Nat)
    (hk : aesKey.length = 32) (hn : nonce.length = 12) :
    hybrid_decrypt_at_worker (hybrid_encrypt_for_worker pt seed aesKey nonce) seed
      = .ok pt := by
  have hr : (rsaEncrypt seed aesKey).length = 256 :=
    rsaEncrypt_length seed aesKey (by omega)
  unfold hybrid_encrypt_for_worker hybrid_decrypt_at_worker hybridDecryptAtWorkerI
  simp only [hr, List.append_assoc]
  have h4 : (toBE4 256).length = 4 := rfl
  have hlens : (toBE4 256 ++ (rsaEncrypt seed aesKey ++
      encrypt_blob pt aesKey nonce)).length
      = 260 + (encrypt_blob pt aesKey nonce).length := by
    simp [List.length_append, hr, h4]
    omega
  rw [if_neg (by omega), List.take_left' h4, fromBE4_toBE4 256 (by norm_num),
    if_neg (by omega), List.drop_left' h4, List.take_left' hr]
  rw [rsa_roundtrip seed aesKey (by omega)]
  have h260 : (toBE4 256 ++ rsaEncrypt seed aesKey).length = 4 + 256 := by
    simp [List.length_append, hr, h4]
  rw [← List.append_assoc, List.drop_left' h260]
  simp only [decrypt_encrypt_blob pt aesKey nonce hn]

/-- Witness for C1 at a concrete plaintext, keypair seed, AES key and nonce. -/
theorem hybrid_roundtrip_witness :
    (List.replicate 32 7 : Bytes).length = 32 ∧
    (List.replicate 12 3 : Bytes).length = 12 ∧
    hybrid_decrypt_at_worker
      (hybrid_encrypt_for_worker [104, 105] 42 (List.replicate 32 7)
        (List.replicate 12 3)) 42 = .ok [104, 105] :=
  ⟨by decide, by decide,
    hybrid_roundtrip [104, 105] (List.replicate 32 7) (List.replicate 12 3) 42
      (by decide) (by decide)⟩

/-- C2: an envelope shorter than 4 bytes, or shorter than 4 plus the key
length declared in its big-endian header, makes hybrid_decrypt_at_worker fail
with the corresponding error while performing zero RSA decryptions. -/
theorem hybrid_short_envelope_rejected (blob : Bytes) (priv : Nat)
    (h : blob.length < 4 ∨ blob.length < 4 + fromBE4 (blob.take 4)) :
    hybridDecryptAtWorkerI blob priv =
      (.error (if blob.length < 4 then CryptoErr.hybridTooShortHeader
        else CryptoErr.hybridTooShortKey), 0) := by
  unfold hybridDecryptAtWorkerI
  by_cases h4 : blob.length < 4
  · simp [h4]
  · have h2 : blob.length < 4 + fromBE4 (blob.take 4) := h.resolve_left h4
    simp [h4, h2]

/-- Witness for C2 on a concrete 3-byte blob. -/
theorem hybrid_short_envelope_rejected_witness :
    hybridDecryptAtWorkerI [0, 0, 1] 0 =
      (.error CryptoErr.hybridTooShortHeader, 0) := by
  have h := hybrid_short_envelope_rejected [0, 0, 1] 0 (Or.inl (by decide))
  simpa using h

/-- C10: a sealed blob is the 12-byte nonce followed by the ciphertext with
its 16-byte tag, so its length is exactly the plaintext length plus 28. -/
theorem encrypt_blob_frame_length (plaintext key nonce : Bytes)
    (hk : key.length = 32) (hn : nonce.length = 12) :
    (encrypt_blob plaintext key nonce).length = plaintext.length + 28 ∧
    (encrypt_blob plaintext key nonce).take 12 = nonce :=
  ⟨encrypt_blob_length plaintext key nonce hn,
    by unfold encrypt_blob; exact List.take_left' hn⟩

/-- Witness for C10 at a concrete plaintext, key and nonce. -/
theorem encrypt_blob_frame_length_witness :
    (encrypt_blob [1, 2, 3] (List.replicate 32 5) (List.replicate 12 9)).length
      = 3 + 28 ∧
    (encrypt_blob [1, 2, 3] (List.replicate 32 5) (List.replicate 12 9)).take 12
      = List.replicate 12 9 :=
  encrypt_blob_frame_length [1, 2, 3] (List.replicate 32 5) (List.replicate 12 9)
    (by decide) (by decide)

theorem sanitizeExtra_keys_not_sensitive (cfg : LogConfig)
    (extra : List (String × PyVal)) :
    ∀ kv ∈ sanitizeExtra cfg extra, kv.1 ∉ SENSITIVE_KEYS := by
  intro kv hkv
  rcases List.mem_filterMap.1 hkv with ⟨ab, hmem, hab⟩
  by_cases hs : ab.1 ∈ SENSITIVE_KEYS
  · simp [hs] at hab
  · rw [if_neg hs] at hab
    by_cases ht : (cfg.STRICT_NO_LOGGING_MODE && ab.1 == "tenant_id"
        && !cfg.ALLOW_HOST_LOGGING_OF_IDS) = true
    · rw [if_pos ht] at hab; cases hab
    · rw [if_neg ht] at hab
      by_cases hl : (cfg.STRICT_NO_LOGGING_MODE && isLongStr ab.2) = true
      · rw [if_pos hl] at hab; cases hab
      · rw [if_neg hl] at hab
        injection hab with h
        rw [← h]
        simpa using hs

theorem sanitizeExtra_append (cfg : LogConfig)
    (e1 e2 : List (String × PyVal)) :
    sanitizeExtra cfg (e1 ++ e2) = sanitizeExtra cfg e1 ++ sanitizeExtra cfg e2 :=
  List.filterMap_append e1 e2 _

theorem map_ite_singleton {α β : Type} (f : α → β) (x : α) (b : Prop)
    [Decidable b] : (if b then [x] else []).map f = if b then [f x] else [] := by
  split <;> simp

theorem mem_ite_singleton {α : Type} {a x : α} {b : Prop} [Decidable b]
    (h : a ∈ (if b then [x] else [])) : a = x := by
  by_cases hb : b
  · rw [if_pos hb] at h; simpa using h
  · rw [if_neg hb] at h; simp at h

theorem sanitizeExtra_key_from_extra (cfg : LogConfig)
    (extra : List (String × PyVal)) :
    ∀ kv ∈ sanitizeExtra cfg extra, ∃ ab ∈ extra, ab.1 = kv.1 := by
  intro kv hkv
  rcases List.mem_filterMap.1 hkv with ⟨ab, hmem, hab⟩
  refine ⟨ab, hmem, ?_⟩
  by_cases hs : ab.1 ∈ SENSITIVE_KEYS
  · simp [hs] at hab
  · rw [if_neg hs] at hab
    by_cases ht : (cfg.STRICT_NO_LOGGING_MODE && ab.1 == "tenant_id"
        && !cfg.ALLOW_HOST_LOGGING_OF_IDS) = true
    · rw [if_pos ht] at hab; cases hab
    · rw [if_neg ht] at hab
      by_cases hl : (cfg.STRICT_NO_LOGGING_MODE && isLongStr ab.2) = true
      · rw [if_pos hl] at hab; cases hab
      · rw [if_neg hl] at hab
        injection hab with h
        rw [← h]

/-- C4: the privacy filter of log_event.  First, a field keyed prompt never
appears among the emitted fields, in any mode.  Second, in strict no-logging
mode with id logging disabled, a tenant_id entry anywhere in extra
contributes nothing to the emitted fields.  Third, in strict mode with id
logging enabled a short tenant_id string is kept.  Fourth and fifth, in
strict mode a 500-character string value under a non-sensitive key is
dropped while a 10-character one is kept. -/
theorem log_event_redaction :
    (∀ (cfg : LogConfig) (rid tid wid err : Option String)
      (extra : List (String × PyVal)),
      "prompt" ∉ (logFields cfg rid tid wid err extra).map Prod.fst) ∧
    (∀ (cfg : LogConfig) (rid tid wid err : Option String) (v : PyVal)
      (e1 e2 : List (String × PyVal)),
      cfg.STRICT_NO_LOGGING_MODE = true → cfg.ALLOW_HOST_LOGGING_OF_IDS = false →
      logFields cfg rid tid wid err (e1 ++ ("tenant_id", v) :: e2)
        = logFields cfg rid tid wid err (e1 ++ e2)) ∧
    (∀ (cfg : LogConfig) (s : String),
      cfg.STRICT_NO_LOGGING_MODE = true → cfg.ALLOW_HOST_LOGGING_OF_IDS = true →
      s.length ≤ 256 →
      sanitizeExtra cfg [("tenant_id", .str s)] = [("tenant_id", s)]) ∧
    (∀ (cfg : LogConfig) (k : String) (s : String),
      cfg.STRICT_NO_LOGGING_MODE = true → k ∉ SENSITIVE_KEYS →
      k ≠ "tenant_id" → s.length = 500 →
      sanitizeExtra cfg [(k, .str s)] = []) ∧
    (∀ (cfg : LogConfig) (k : String) (s : String),
      cfg.STRICT_NO_LOGGING_MODE = true → k ∉ SENSITIVE_KEYS →
      k ≠ "tenant_id" → s.length = 10 →
      sanitizeExtra cfg [(k, .str s)] = [(k, s)]) := by
  refine ⟨?_, ?_, ?_, ?_, ?_⟩
  · intro cfg rid tid wid err extra hmem
    unfold logFields at hmem
    simp only [List.map_append, map_ite_singleton, List.mem_append] at hmem
    rcases hmem with ((((h | h) | h) | h) | h) | h
    · exact absurd (mem_ite_singleton h) (by decide)
    · exact absurd (mem_ite_singleton h) (by decide)
    · exact absurd (mem_ite_singleton h) (by decide)
    · exact absurd (mem_ite_singleton h) (by decide)
    · rcases List.mem_map.1 h with ⟨kv, hkv, hfst⟩
      exact sanitizeExtra_keys_not_sensitive cfg extra kv hkv
        (by rw [hfst]; simp [SENSITIVE_KEYS])
    · exact absurd (mem_ite_singleton h) (by decide)
  · intro cfg rid tid wid err v e1 e2 hstrict hallow
    unfold logFields
    have h : sanitizeExtra cfg (e1 ++ ("tenant_id", v) :: e2)
        = sanitizeExtra cfg (e1 ++ e2) := by
      rw [sanitizeExtra_append, sanitizeExtra_append]
      have hhead : sanitizeExtra cfg (("tenant_id", v) :: e2)
          = sanitizeExtra cfg e2 := by
        simp [sanitizeExtra, List.filterMap_cons, SENSITIVE_KEYS, hstrict, hallow]
      rw [hhead]
    rw [h]
  · intro cfg s hstrict hallow hshort
    have hlong : isLongStr (.str s) = false := by
      simp [isLongStr]
      omega
    simp [sanitizeExtra, List.filterMap_cons, SENSITIVE_KEYS, hstrict, hallow,
      hlong, PyVal.pyStr]
  · intro cfg k s hstrict hks hkt hlen
    have hlong : isLongStr (.str s) = true := by
      simp [isLongStr]
      omega
    simp [sanitizeExtra, List.filterMap_cons, hks, hkt, hstrict, hlong]
  · intro cfg k s hstrict hks hkt hlen
    have hlong : isLongStr (.str s) = false := by
      simp [isLongStr]
      omega
    simp [sanitizeExtra, List.filterMap_cons, hks, hkt, hstrict, hlong,
      PyVal.pyStr]

/-- Witness for C4 at concrete configs, keys and values. -/
theorem log_event_redaction_witness :
    ("prompt" ∉ (logFields ⟨false, true⟩ none none none none
      [("prompt", .str "secret")]).map Prod.fst) ∧
    (logFields ⟨true, false⟩ none none none none
        ([] ++ ("tenant_id", .str "t9") :: [])
      = logFields ⟨true, false⟩ none none none none ([] ++ [])) ∧
    (sanitizeExtra ⟨true, true⟩ [("tenant_id", .str "t9")]
      = [("tenant_id", "t9")]) ∧
    (sanitizeExtra ⟨true, false⟩
      [("note", .str (String.mk (List.replicate 500 'a')))] = []) ∧
    (sanitizeExtra ⟨true, false⟩ [("note", .str "0123456789")]
      = [("note", "0123456789")]) :=
  ⟨log_event_redaction.1 ⟨false, true⟩ none none none none
      [("prompt", .str "secret")],
    log_event_redaction.2.1 ⟨true, false⟩ none none none none
      (.str "t9") [] [] rfl rfl,
    log_event_redaction.2.2.1 ⟨true, true⟩ "t9" rfl rfl (by decide),
    log_event_redaction.2.2.2.1 ⟨true, false⟩ "note"
      (String.mk (List.replicate 500 'a')) rfl (by decide) (by decide)
      (by simp [String.length]),
    log_event_redaction.2.2.2.2 ⟨true, false⟩ "note" "0123456789" rfl
      (by decide) (by decide) (by decide)⟩

/-- C9: for a call to log_event with a non-empty tenant_id argument, and an
extra dict that does not itself carry a tenant_id key, the emitted fields
contain a tenant_id entry exactly when ALLOW_HOST_LOGGING_OF_IDS is enabled,
in strict and non-strict mode alike. -/
theorem tenant_id_emitted_iff_flag (cfg : LogConfig)
    (rid wid err : Option String) (t : String)
    (extra : List (String × PyVal)) (ht : t ≠ "")
    (hx : ∀ kv ∈ extra, kv.1 ≠ "tenant_id") :
    "tenant_id" ∈ (logFields cfg rid (some t) wid err extra).map Prod.fst
      ↔ cfg.ALLOW_HOST_LOGGING_OF_IDS = true := by
  constructor
  · intro hmem
    by_contra hflag
    have hflag' : cfg.ALLOW_HOST_LOGGING_OF_IDS = false := by
      revert hflag
      cases cfg.ALLOW_HOST_LOGGING_OF_IDS <;> simp
    unfold logFields at hmem
    simp only [List.map_append, map_ite_singleton, List.mem_append] at hmem
    rcases hmem with ((((h | h) | h) | h) | h) | h
    · exact absurd (mem_ite_singleton h) (by decide)
    · rw [hflag', Bool.and_false] at h
      simp at h
    · exact absurd (mem_ite_singleton h) (by decide)
    · exact absurd (mem_ite_singleton h) (by decide)
    · rcases List.mem_map.1 h with ⟨kv, hkv, hfst⟩
      rcases sanitizeExtra_key_from_extra cfg extra kv hkv with ⟨ab, hab, habk⟩
      exact hx ab hab (by rw [habk, hfst])
    · exact absurd (mem_ite_singleton h) (by decide)
  · intro hflag
    unfold logFields
    have htt : truthy (some t) = true := by simp [truthy, ht]
    simp [htt, hflag]

/-- Witness for C9: flag enabled, non-empty tenant identifier, empty extra. -/
theorem tenant_id_emitted_iff_flag_witness :
    "tenant_id" ∈ (logFields ⟨false, true⟩ none (some "t1") none none
      []).map Prod.fst :=
  (tenant_id_emitted_iff_flag ⟨false, true⟩ none none none "t1" []
    (by decide) (by simp)).2 rfl

theorem workerYieldLoop_length (key : Bytes) (nonces : Nat → Bytes)
    (s : Nat) (l : List String) :
    (workerYieldLoop key nonces s l).length = l.length := by
  induction l generalizing s with
  | nil => rfl
  | cons t ts ih => simp [workerYieldLoop, ih]

theorem workerYieldLoop_getD (key : Bytes) (nonces : Nat → Bytes)
    (s : Nat) (l : List String) :
    ∀ i, i < l.length →
      (workerYieldLoop key nonces s l).getD i [] =
        encrypt_token (l.getD i "") key (nonces (s + i)) := by
  induction l generalizing s with
  | nil => intro i hi; simp at hi
  | cons t ts ih =>
    intro i hi
    cases i with
    | zero => simp [workerYieldLoop]
    | succ j =>
      have hj : j < ts.length := by simpa using hi
      have := ih (s + 1) j hj
      simpa [workerYieldLoop, Nat.add_assoc, Nat.add_comm 1 j] using this

/-- C3: a worker that initializes and serves one successful request visits
exactly INIT, MODEL_LOADING, READY, BUSY, STREAMING, READY; a request whose
envelope fails decryption ends the trace with BUSY, FAILED and no later
READY on that call. -/
theorem worker_state_sequence :
    (∀ (w : String) (pt : Bytes) (chunks : List String) (key : Bytes)
      (nonces : Nat → Bytes),
      (RunInference (initialize_worker (mkStateManager w)) (.ok pt) chunks
        false key nonces).mgr.trace
        = [.INIT, .MODEL_LOADING, .READY, .BUSY, .STREAMING, .READY]) ∧
    (∀ (w : String) (e : CryptoErr) (chunks : List String) (key : Bytes)
      (nonces : Nat → Bytes),
      (RunInference (initialize_worker (mkStateManager w)) (.error e) chunks
        false key nonces).mgr.trace
        = [.INIT, .MODEL_LOADING, .READY, .BUSY, .FAILED]) := by
  constructor
  · intro w pt chunks key nonces
    simp [RunInference, initialize_worker, set_state, mkStateManager]
  · intro w e chunks key nonces
    simp [RunInference, initialize_worker, set_state, mkStateManager]

/-- C7 counterexample: a whitespace-only chunk is not skipped by the worker;
it is sealed, emitted and counted for metrics. -/
theorem whitespace_chunk_not_skipped :
    generateStreamChunks [" "] = [" "] ∧
    (RunInference (mkStateManager "w") (.ok []) [" "] false
      (List.replicate 32 0) (fun _ => List.replicate 12 0)).tokenCount = 1 ∧
    (RunInference (mkStateManager "w") (.ok []) [" "] false
      (List.replicate 32 0) (fun _ => List.replicate 12 0)).outputs
      = [encrypt_token " " (List.replicate 32 0) (List.replicate 12 0)] :=
  ⟨rfl, rfl, rfl⟩

/-- C7 amended: the worker skips exactly the empty chunks produced by the
Generation Collaborator: an empty chunk is neither sealed, nor emitted, nor
counted, while every other chunk (whitespace-only chunks included) is
independently sealed with its own nonce, emitted in order, and counted. -/
theorem nonempty_chunks_sealed_emitted_counted (m : WorkerStateManager)
    (pt : Bytes) (chunks : List String) (key : Bytes) (nonces : Nat → Bytes) :
    (RunInference m (.ok pt) chunks false key nonces).tokenCount
      = (chunks.filter (fun t => t != "")).length ∧
    (RunInference m (.ok pt) chunks false key nonces).outputs.length
      = (chunks.filter (fun t => t != "")).length ∧
    (∀ i, i < (chunks.filter (fun t => t != "")).length →
      (RunInference m (.ok pt) chunks false key nonces).outputs.getD i []
        = encrypt_token ((chunks.filter (fun t => t != "")).getD i "") key
            (nonces i)) ∧
    "" ∉ chunks.filter (fun t => t != "") ∧
    (∀ t ∈ chunks, t ≠ "" → t ∈ chunks.filter (fun t => t != "")) := by
  refine ⟨?_, ?_, ?_, ?_, ?_⟩
  · simp [RunInference, generateStreamChunks]
  · simp [RunInference, generateStreamChunks, workerYieldLoop_length]
  · intro i hi
    have h := workerYieldLoop_getD key nonces 0 (chunks.filter (fun t => t != "")) i hi
    simpa [RunInference, generateStreamChunks] using h
  · intro hmem
    have := List.of_mem_filter hmem
    simp at this
  · intro t hmem hne
    exact List.mem_filter.2 ⟨hmem, by simpa using hne⟩

/-- Witness for C7 amended on a concrete chunk list with an empty, a plain
and a whitespace-only chunk. -/
theorem nonempty_chunks_sealed_emitted_counted_witness :
    (RunInference (mkStateManager "w") (.ok []) ["a", "", " "] false
      (List.replicate 32 0) (fun _ => List.replicate 12 0)).outputs.getD 0 []
      = encrypt_token "a" (List.replicate 32 0) (List.replicate 12 0) := by
  have h := (nonempty_chunks_sealed_emitted_counted (mkStateManager "w") []
    ["a", "", " "] (List.replicate 32 0) (fun _ => List.replicate 12 0)).2.2.1
    0 (by decide)
  simpa using h

theorem runSelections_eq (ws : List String) (c n : Nat) :
    runSelections ⟨ws, c⟩ n
      = (List.range n).map (fun j => (c + j) % ws.length) := by
  induction n generalizing c with
  | zero => rfl
  | succ k ih =>
    have h1 := ih ((c + 1) % ws.length)
    simp only [runSelections, chooseWorker]
    rw [h1, List.range_succ_eq_map, List.map_cons, List.map_map]
    congr 1
    apply List.map_congr_left
    intro j _
    show ((c + 1) % ws.length + j) % ws.length = (c + (j + 1)) % ws.length
    rw [Nat.mod_add_mod]
    exact congrArg (· % ws.length) (by omega)

theorem count_mod_range (N k i : Nat) (hi : i < N) :
    ((List.range (N * k)).map (fun j => j % N)).count i = k := by
  induction k with
  | zero => simp
  | succ m ih =>
    have hsplit : N * (m + 1) = N * m + N := by ring
    rw [hsplit, List.range_add, List.map_append, List.count_append, ih]
    have hmap : ((List.range N).map (fun j => N * m + j)).map (fun j => j % N)
        = List.range N := by
      rw [List.map_map]
      have : ∀ j ∈ List.range N, (fun j => j % N) ((fun j => N * m + j) j) = j := by
        intro j hj
        have hjN : j < N := List.mem_range.1 hj
        show (N * m + j) % N = j
        rw [Nat.add_comm, Nat.add_mul_mod_self_left]
        exact Nat.mod_eq_of_lt hjN
      calc ((List.range N).map ((fun j => j % N) ∘ (fun j => N * m + j)))
          = (List.range N).map id := List.map_congr_left this
        _ = List.range N := List.map_id _
    rw [hmap, List.count_eq_one_of_mem (List.nodup_range N) (List.mem_range.2 hi)]

/-- C5: with serialized cursor access, N * k successive selections against a
pool of N workers pick positions in strict rotation of the worker list, and
each of the N positions is picked exactly k times. -/
theorem round_robin_fair (ws : List String) (k : Nat) (h : ws ≠ []) :
    runSelections ⟨ws, 0⟩ (ws.length * k)
      = (List.range (ws.length * k)).map (fun j => j % ws.length) ∧
    ∀ i, i < ws.length →
      (runSelections ⟨ws, 0⟩ (ws.length * k)).count i = k := by
  have he := runSelections_eq ws 0 (ws.length * k)
  simp only [Nat.zero_add] at he
  refine ⟨he, ?_⟩
  intro i hi
  rw [he]
  exact count_mod_range ws.length k i hi

/-- Witness for C5 on a concrete pool of two workers and k = 3. -/
theorem round_robin_fair_witness :
    runSelections ⟨["w1", "w2"], 0⟩ (["w1", "w2"].length * 3)
      = (List.range (["w1", "w2"].length * 3)).map
          (fun j => j % ["w1", "w2"].length) ∧
    ∀ i, i < (["w1", "w2"] : List String).length →
      (runSelections ⟨["w1", "w2"], 0⟩ (["w1", "w2"].length * 3)).count i = 3 :=
  round_robin_fair ["w1", "w2"] 3 (by decide)

theorem uuid4Str_length (r : List Nat) : (uuid4Str r).length = 36 := by
  simp [uuid4Str, byteHex, String.length]

/-- C6: dispatch returns the caller-supplied request_id when it is
non-empty, otherwise the freshly generated uuid4 string; in both cases the
returned identifier is non-empty. -/
theorem dispatch_request_id (req : DispatchRequest) (r : List Nat)
    (workerPub : Nat) (aesKey nonce : Bytes) :
    (∀ s, req.request_id = some s → s ≠ "" →
      (dispatch req r workerPub aesKey nonce).1 = s) ∧
    ((req.request_id = none ∨ req.request_id = some "") →
      (dispatch req r workerPub aesKey nonce).1 = uuid4Str r) ∧
    (dispatch req r workerPub aesKey nonce).1 ≠ "" := by
  have hulen := uuid4Str_length r
  have hune : uuid4Str r ≠ "" := by
    intro hcontra
    rw [hcontra] at hulen
    simp at hulen
  refine ⟨?_, ?_, ?_⟩
  · intro s hs hne
    simp [dispatch, ensure_request_id, hs, hne]
  · intro hcase
    rcases hcase with hc | hc <;> simp [dispatch, ensure_request_id, hc]
  · cases hreq : req.request_id with
    | none => simpa [dispatch, ensure_request_id, hreq] using hune
    | some s =>
      by_cases hse : s = ""
      · simpa [dispatch, ensure_request_id, hreq, hse] using hune
      · simpa [dispatch, ensure_request_id, hreq, hse] using hse

/-- Witness for C6 at concrete requests with and without a caller id. -/
theorem dispatch_request_id_witness :
    (dispatch ⟨some "abc", none, "p"⟩ (List.range 16) 1 (List.replicate 32 0)
      (List.replicate 12 0)).1 = "abc" ∧
    (dispatch ⟨none, none, "p"⟩ (List.range 16) 1 (List.replicate 32 0)
      (List.replicate 12 0)).1 = uuid4Str (List.range 16) ∧
    (dispatch ⟨some "", none, "p"⟩ (List.range 16) 1 (List.replicate 32 0)
      (List.replicate 12 0)).1 ≠ "" :=
  ⟨(dispatch_request_id ⟨some "abc", none, "p"⟩ (List.range 16) 1
      (List.replicate 32 0) (List.replicate 12 0)).1 "abc" rfl (by decide),
   (dispatch_request_id ⟨none, none, "p"⟩ (List.range 16) 1
      (List.replicate 32 0) (List.replicate 12 0)).2.1 (Or.inl rfl),
   (dispatch_request_id ⟨some "", none, "p"⟩ (List.range 16) 1
      (List.replicate 32 0) (List.replicate 12 0)).2.2⟩

/-- C8: the region-to-datacenter routing map is NOT overridable by any
environment variable: from_env always returns the compiled default map, even
when SECURELLM_REGION_TO_DC is set, contradicting the dataclass docstring
that all values can be overridden through the environment.  (The fallback
behaviour for unparsable overrides of the other helpers is by the
definitions of the env helpers above.) -/
theorem region_map_env_override_ignored :
    (Config.from_env (fun k =>
      if k = "SECURELLM_REGION_TO_DC" then some "eu-west-1:cluster-c"
      else none)).REGION_TO_DC = Config.defaults.REGION_TO_DC ∧
    ∀ env : Env, (Config.from_env env).REGION_TO_DC
      = Config.defaults.REGION_TO_DC :=
  ⟨rfl, fun _ => rfl⟩

end SecureChat
